import Mathlib

/-!
Verification of the sqlite_vec vector store (src/src/vectorstore/sqlite_vec/sqlite_vec.rs).

Shallow embedding conventions:
* The SQLite connection pool, the SQL engine and the embedding collaborator are
  external; they are represented by explicit oracles (functions passed in).
* Rust `f32`/`f64` scalars appear only as opaque payloads (vector components,
  distances): the code never performs arithmetic on them, so they are modelled
  as `Int`.
* `Box<dyn Error>` results are modelled as `Except StoreError`.
-/

namespace SqliteVec

/-- JSON values (serde_json::Value): null, bool, number, string, array, object.
Numbers are modelled as `Int` (no numeric computation occurs in this code). -/
inductive JsonValue where
  | null : JsonValue
  | bool : Bool → JsonValue
  | num : Int → JsonValue
  | str : String → JsonValue
  | arr : List JsonValue → JsonValue
  | obj : List (String × JsonValue) → JsonValue
deriving Repr

/-- The metadata filter AST, `enum SqliteFilter` from the source:
`Eq(String, String)`, `Cmp(std::cmp::Ordering, String, String)`,
`In(String, Vec<String>)`, `And(Vec<SqliteFilter>)`, `Or(Vec<SqliteFilter>)`. -/
inductive SqliteFilter where
  | eq : String → String → SqliteFilter
  | cmp : Ordering → String → String → SqliteFilter
  | inSet : String → List String → SqliteFilter
  | and : List SqliteFilter → SqliteFilter
  | or : List SqliteFilter → SqliteFilter
deriving Repr

/-- The comparison operator chosen for a `std::cmp::Ordering` in the `Cmp`
arm of `impl Display for SqliteFilter`. -/
def orderingOp : Ordering → String
  | .lt => "<"
  | .gt => ">"
  | .eq => "="

mutual

/-- Source `impl Display for SqliteFilter`: renders a filter into the SQL predicate
string by direct string concatenation (`format!`), with no escaping of the
field name or the literal. -/
def sqliteFilterToString : SqliteFilter → String
  | .eq a b => "json_extract(e.metadata, '$." ++ a ++ "') = " ++ b
  | .cmp o a b =>
      "json_extract(e.metadata, '$." ++ a ++ "') " ++ orderingOp o ++ " " ++ b
  | .inSet a values =>
      "json_extract(e.metadata, '$." ++ a ++ "') IN (" ++
        String.intercalate "," (values.map (fun s => "'" ++ s ++ "'")) ++ ")"
  | .and filters => String.intercalate " AND " (sqliteFilterListToString filters)
  | .or filters => String.intercalate " OR " (sqliteFilterListToString filters)

/-- Source `filters.iter().map(|filter| filter.to_string()).collect::<Vec<String>>()`. -/
def sqliteFilterListToString : List SqliteFilter → List String
  | [] => []
  | f :: fs => sqliteFilterToString f :: sqliteFilterListToString fs

end

/-- Errors surfaced as `Box<dyn Error>` in the source, collapsed to the cases
this file distinguishes: a failure of the embedding collaborator, the
`io::Error` raised when `vectors.len() != docs.len()`, a storage-engine
(sqlx) failure, and a metadata decode failure inside `try_get`. -/
inductive StoreError where
  | embed : StoreError
  | countMismatch : StoreError
  | storage : StoreError
  | decode : StoreError
deriving Repr, DecidableEq

/-- Modelled from the spec: the embedding collaborator
(`embed_documents(texts) -> sequence of vectors`, `embed_query(text) -> vector`,
both fallible); the `Embedder` trait itself is outside src/. Scalars are
modelled as `Int` (no arithmetic on them occurs in this code). -/
structure Embedder where
  embedDocuments : List String → Except StoreError (List (List Int))
  embedQuery : String → Except StoreError (List Int)

/-- Modelled from the spec: a document (`page_content`, JSON metadata mapping,
retrieval score); the `Document` struct is outside src/. The metadata mapping
is modelled as an association list, the `f64` score as `Int`. -/
structure Document where
  pageContent : String
  metadata : List (String × JsonValue)
  score : Int
deriving Repr

/-- Modelled from the spec: the per-call options surface
(`VecStoreOptions<SqliteFilter>`, outside src/) restricted to the two fields
this source file reads: the optional filter and the optional embedder
override. -/
structure SqliteOptions where
  filters : Option SqliteFilter
  embedder : Option Embedder

/-- Source `struct Store`: collection table name, configured vector dimensions and
default embedder. The `Pool<Sqlite>` handle is external and is represented by
the oracles passed to each operation. -/
structure Store where
  table : String
  vectorDimensions : Int
  embedder : Embedder

/-- Source `Store::get_filters`: render the optional filter, `"TRUE"` when absent. -/
def Store.getFilters (opt : SqliteOptions) : Except StoreError String :=
  match opt.filters with
  | some filter => .ok (sqliteFilterToString filter)
  | none => .ok "TRUE"

/-- A persisted row of the collection table: `rowid`, `text`, `metadata`
(bound as a JSON value), `text_embedding` (bound as the vector's JSON
serialization, `text_embedding.to_string()`). -/
structure StoredRow where
  rowid : Int
  text : String
  metadata : JsonValue
  textEmbedding : String
deriving Repr

/-- The visible state of the collection table: the next `rowid` SQLite's
AUTOINCREMENT will assign, and the committed rows. -/
structure Db where
  nextRowId : Int
  rows : List StoredRow
deriving Repr

/-- Oracle standing for the transactional storage engine during one
`add_documents` call: whether `pool.begin()` succeeds, whether the i-th
`INSERT` of the batch succeeds, and whether `tx.commit()` succeeds. -/
structure TxOracle where
  beginOk : Bool
  insertOk : Nat → Bool
  commitOk : Bool

/-- Source `json!(&vector).to_string()`: the JSON serialization of a vector. -/
def jsonOfVector (v : List Int) : String :=
  "[" ++ String.intercalate "," (v.map toString) ++ "]"

/-- The `for (doc, vector) in docs.iter().zip(vectors.iter())` loop of
`add_documents`, run against the open transaction: each iteration issues one
`INSERT` (which the oracle may fail) and records `last_insert_rowid()` as a
string. Returns the rows the transaction would commit and the collected ids,
or the first error. -/
def insertLoop (nextId : Int) (pairs : List (Document × List Int))
    (insertOk : Nat → Bool) (i : Nat) :
    Except StoreError (List StoredRow × List String) :=
  match pairs with
  | [] => .ok ([], [])
  | (doc, vector) :: rest =>
    if insertOk i then
      match insertLoop (nextId + 1) rest insertOk (i + 1) with
      | .error e => .error e
      | .ok (rows, ids) =>
          .ok ({ rowid := nextId, text := doc.pageContent,
                 metadata := .obj doc.metadata,
                 textEmbedding := jsonOfVector vector } :: rows,
               toString nextId :: ids)
    else .error .storage

/-- Source `Store::add_documents`: embed all texts in one call via the override
embedder if supplied (else the default), fail with the count-mismatch error
if the collaborator returns a wrong number of vectors, then insert every row
inside one transaction and commit. Any error before `commit` leaves the
database unchanged (sqlx rolls the transaction back on drop). Returns the
new database state and the result. -/
def Store.addDocuments (s : Store) (docs : List Document) (opt : SqliteOptions)
    (db : Db) (tx : TxOracle) : Db × Except StoreError (List String) :=
  match (opt.embedder.getD s.embedder).embedDocuments
      (docs.map (fun d => d.pageContent)) with
  | .error e => (db, .error e)
  | .ok vectors =>
    if vectors.length ≠ docs.length then
      (db, .error .countMismatch)
    else if tx.beginOk then
      match insertLoop db.nextRowId (docs.zip vectors) tx.insertOk 0 with
      | .error e => (db, .error e)
      | .ok (newRows, ids) =>
          if tx.commitOk then
            ({ nextRowId := db.nextRowId + docs.length,
               rows := db.rows ++ newRows }, .ok ids)
          else (db, .error .storage)
    else (db, .error .storage)

/-- The SQL text `similarity_search` sends (whitespace normalized): the query
vector and the compiled filter are interpolated into the string, the two
`limit` occurrences are bound parameters. -/
def searchSql (table queryVector filter : String) : String :=
  "SELECT text, metadata, distance FROM " ++ table ++
    " e INNER JOIN vec_" ++ table ++
    " v on v.rowid = e.rowid WHERE v.text_embedding match '" ++ queryVector ++
    "' AND k = ? AND " ++ filter ++ " ORDER BY distance LIMIT ?"

/-- The query-construction prefix of `Store::similarity_search`: embed the
query text with the collection's default embedder (`self.embedder`), compile
the filter, and build the SQL text. -/
def Store.similaritySearchSql (s : Store) (query : String) (opt : SqliteOptions) :
    Except StoreError String :=
  match s.embedder.embedQuery query with
  | .error e => .error e
  | .ok queryVector =>
    match Store.getFilters opt with
    | .error e => .error e
    | .ok filter => .ok (searchSql s.table (jsonOfVector queryVector) filter)

/-- A row fetched by `similarity_search`. `metadata` is the result of
`row.try_get::<Value>("metadata")`: `none` models a blob that does not decode
as JSON. `try_get` for `text` and `distance` is taken to succeed (their
failure would be an unrelated engine decode error). -/
structure FetchedRow where
  text : String
  metadata : Option JsonValue
  distance : Int
deriving Repr

/-- The per-row decoding closure of `similarity_search`: a failing
`try_get("metadata")` is an error (`?`); a JSON object becomes the document's
metadata mapping; any other JSON value degrades to the empty mapping. -/
def decodeRow (r : FetchedRow) : Except StoreError Document :=
  match r.metadata with
  | none => .error .decode
  | some metadataJson =>
    let metadata := match metadataJson with
      | .obj o => o
      | _ => ([] : List (String × JsonValue))
    .ok { pageContent := r.text, metadata := metadata, score := r.distance }

/-- Source `rows.into_iter().map(...).collect::<Result<Vec<Document>, _>>()`:
decode every row, short-circuiting at the first error. -/
def decodeRows : List FetchedRow → Except StoreError (List Document)
  | [] => .ok []
  | r :: rs =>
    match decodeRow r with
    | .error e => .error e
    | .ok d =>
      match decodeRows rs with
      | .error e => .error e
      | .ok ds => .ok (d :: ds)

/-- Source `Store::similarity_search`: build the SQL text (embedding the query with
the default embedder and compiling the filter), run it through the engine
oracle with `limit` bound twice (`k = ?` and `LIMIT ?`), and decode the
fetched rows. -/
def Store.similaritySearch (s : Store) (query : String) (limit : Nat)
    (opt : SqliteOptions)
    (engine : String → Nat → Nat → Except StoreError (List FetchedRow)) :
    Except StoreError (List Document) :=
  match s.similaritySearchSql query opt with
  | .error e => .error e
  | .ok sql =>
    match engine sql limit limit with
    | .error e => .error e
    | .ok rows => decodeRows rows

/-- The schema objects `create_table_if_not_exists` manages for one
collection: the row table, the `vec0` virtual table (recording the dimension
it was created with), and the propagation trigger. -/
structure SchemaState where
  tableExists : Bool
  vecDims : Option Int
  triggerExists : Bool
deriving Repr, DecidableEq

/-- Source `Store::create_table_if_not_exists`: three `CREATE ... IF NOT EXISTS`
statements. Each is a no-op when its object already exists; in particular an
existing `vec0` table keeps the dimension it was created with, whatever
`self.vector_dimensions` now says. -/
def Store.createTableIfNotExists (s : Store) (st : SchemaState) :
    SchemaState × Except StoreError Unit :=
  let st := if st.tableExists then st else { st with tableExists := true }
  let st := if st.vecDims.isSome then st
            else { st with vecDims := some s.vectorDimensions }
  let st := if st.triggerExists then st else { st with triggerExists := true }
  (st, .ok ())

/-- The rows the `add_documents` loop stores for the given document/vector
pairs when every `INSERT` succeeds, starting from a given next `rowid`. -/
def mkRows (nextId : Int) : List (Document × List Int) → List StoredRow
  | [] => []
  | (doc, vector) :: rest =>
      { rowid := nextId, text := doc.pageContent, metadata := .obj doc.metadata,
        textEmbedding := jsonOfVector vector } :: mkRows (nextId + 1) rest

/-- The storage-assigned identifiers (consecutive rowids, stringified) for a
batch of the given size starting from a given next `rowid`. -/
def mkIds (nextId : Int) : Nat → List String
  | 0 => []
  | n + 1 => toString nextId :: mkIds (nextId + 1) n

/-- Fixture: an embedder mapping every text to the 3-dimensional vector
`[1,0,0]`. -/
def exEmbedder1 : Embedder :=
  { embedDocuments := fun ts => .ok (ts.map fun _ => [1, 0, 0]),
    embedQuery := fun _ => .ok [1, 0, 0] }

/-- Fixture: an embedder mapping every text to the 3-dimensional vector
`[2,0,0]`. -/
def exEmbedder2 : Embedder :=
  { embedDocuments := fun ts => .ok (ts.map fun _ => [2, 0, 0]),
    embedQuery := fun _ => .ok [2, 0, 0] }

/-- Fixture: an embedder producing 2-dimensional vectors, to exercise a
collection configured with `vector_dimensions = 3`. -/
def mismatchEmbedder : Embedder :=
  { embedDocuments := fun _ => .ok [[1, 2]],
    embedQuery := fun _ => .ok [1, 2] }

/-- Fixture: an embedder violating the count contract — it returns zero
vectors for any batch of texts. -/
def emptyEmbedder : Embedder :=
  { embedDocuments := fun _ => .ok [],
    embedQuery := fun _ => .ok [] }

/-- Fixture: a collection named `documents` with `vector_dimensions = 3` and
default embedder `exEmbedder1`. -/
def exStore : Store := { table := "documents", vectorDimensions := 3, embedder := exEmbedder1 }

/-- Fixture: the same collection with `mismatchEmbedder` as its default. -/
def exStoreMismatch : Store :=
  { table := "documents", vectorDimensions := 3, embedder := mismatchEmbedder }

/-- Fixture: the same collection with `emptyEmbedder` as its default. -/
def exStoreEmptyEmb : Store :=
  { table := "documents", vectorDimensions := 3, embedder := emptyEmbedder }

/-- Fixture: the collection name reused with `vector_dimensions = 4`. -/
def exStore4 : Store := { table := "documents", vectorDimensions := 4, embedder := exEmbedder1 }

/-- Fixture: options with no filter and no embedder override. -/
def optNone : SqliteOptions := { filters := none, embedder := none }

/-- Fixture: options with no filter and `exEmbedder2` as embedder override. -/
def optOverride : SqliteOptions := { filters := none, embedder := some exEmbedder2 }

/-- Fixture: a document. -/
def exDoc : Document :=
  { pageContent := "cat", metadata := [("type", JsonValue.str "animal")], score := 0 }

/-- Fixture: an empty collection table (SQLite assigns rowids from 1). -/
def dbEmpty : Db := { nextRowId := 1, rows := [] }

/-- Fixture: a storage oracle on which every transactional step succeeds. -/
def txOk : TxOracle := { beginOk := true, insertOk := fun _ => true, commitOk := true }

/-- Fixture: a storage oracle on which `pool.begin()` fails. -/
def txBeginFail : TxOracle := { beginOk := false, insertOk := fun _ => true, commitOk := true }

/-- Fixture: the empty schema, before any `initialize` call. -/
def emptySchema : SchemaState := { tableExists := false, vecDims := none, triggerExists := false }

/-- Fixture: an engine oracle returning, for any query, one row whose
metadata blob does not decode as JSON. -/
def badEngine : String → Nat → Nat → Except StoreError (List FetchedRow) :=
  fun _ _ _ => .ok [{ text := "t", metadata := none, distance := 0 }]

/-- Claim C10: for every field name `a` and literal `b`, the predicate string
compiled from `Eq(a, b)` is identical to the one compiled from
`Cmp(Equal, a, b)`: the `Eq` variant is definable via the `Compare` variant
with the equality operator. -/
theorem eq_compiles_like_cmp_equal (a b : String) :
    sqliteFilterToString (.eq a b) = sqliteFilterToString (.cmp .eq a b) := by
  simp only [sqliteFilterToString, orderingOp, String.append_assoc]
  rfl

/-- Claim C1 (failing evaluation): the compiler embeds literals verbatim, so
the filter `Eq("type", "'x' OR json_extract(e.metadata, '$.admin') = 'true'")`
— a single equality whose literal contains quotes and SQL — compiles to
exactly the same predicate string as the two-way disjunction
`Or([Eq("type", "'x'"), Eq("admin", "'true'")])`: the quote-bearing literal
has changed the query's logical structure from one equality test into a
disjunction reaching a different metadata field. -/
theorem injection_alters_structure :
    sqliteFilterToString
        (.eq "type" "'x' OR json_extract(e.metadata, '$.admin') = 'true'") =
      sqliteFilterToString (.or [.eq "type" "'x'", .eq "admin" "'true'"]) := by
  rfl

/-- Claim C4 (failing evaluation): `And([])` and `Or([])` are not rejected —
they compile to the empty string (`Vec::join` over no elements), and
`get_filters` returns `Ok("")`; the result is neither a rejection nor the
vacuous `TRUE`/`FALSE`. -/
theorem and_empty_not_rejected :
    sqliteFilterToString (.and []) = "" ∧
    sqliteFilterToString (.or []) = "" ∧
    Store.getFilters { filters := some (.and []), embedder := none } = .ok "" ∧
    Store.getFilters { filters := some (.or []), embedder := none } = .ok "" ∧
    ("" : String) ≠ "TRUE" ∧ ("" : String) ≠ "FALSE" := by
  refine ⟨rfl, rfl, rfl, rfl, by decide, by decide⟩

/-- Claim C6 (failing evaluation): `initialize` on the empty schema creates
the vec0 table with the configured 3 dimensions and is idempotent; but
re-running `initialize` for the same collection name with
`vector_dimensions = 4` succeeds (`Ok(())`) and silently leaves the existing
3-dimensional index in place — no `DimensionMismatch` is raised. -/
theorem createTable_reuse_dims_silently_kept :
    (exStore.createTableIfNotExists emptySchema) =
      ({ tableExists := true, vecDims := some 3, triggerExists := true }, .ok ()) ∧
    (exStore.createTableIfNotExists
        { tableExists := true, vecDims := some 3, triggerExists := true }) =
      ({ tableExists := true, vecDims := some 3, triggerExists := true }, .ok ()) ∧
    exStore4.vectorDimensions = 4 ∧
    (exStore4.createTableIfNotExists
        { tableExists := true, vecDims := some 3, triggerExists := true }) =
      ({ tableExists := true, vecDims := some 3, triggerExists := true }, .ok ()) := by
  refine ⟨rfl, rfl, rfl, rfl⟩

/-- Claim C8: compiling the absent filter yields the tautology predicate
`TRUE`, so the `WHERE` clause of a filterless `similarity_search` restricts
no rows (the engine's constant `TRUE` admits every row). -/
theorem no_filter_compiles_to_tautology (opt : SqliteOptions)
    (h : opt.filters = none) : Store.getFilters opt = .ok "TRUE" := by
  simp [Store.getFilters, h]

/-- Witness for `no_filter_compiles_to_tautology` at the no-filter options. -/
theorem no_filter_compiles_to_tautology_witness :
    Store.getFilters optNone = .ok "TRUE" :=
  no_filter_compiles_to_tautology optNone rfl

/-- Claim C3 (failing evaluation): the collection is configured with
`vector_dimensions = 3` while the embedder produces the 2-dimensional vector
`[1,2]`; `add_documents` performs no dimension check — it proceeds to storage
and commits the mismatched row, returning `Ok` — and `similarity_search`
builds and issues its SQL with the mismatched query vector; neither fails
with `DimensionMismatch` before touching storage. -/
theorem no_dimension_check_before_storage :
    exStoreMismatch.vectorDimensions = 3 ∧
    ([1, 2] : List Int).length ≠ 3 ∧
    exStoreMismatch.addDocuments [exDoc] optNone dbEmpty txOk =
      ({ nextRowId := 2,
         rows := [{ rowid := 1, text := "cat",
                    metadata := .obj [("type", JsonValue.str "animal")],
                    textEmbedding := "[1,2]" }] }, .ok ["1"]) ∧
    exStoreMismatch.similaritySearchSql "cat" optNone =
      .ok (searchSql "documents" "[1,2]" "TRUE") := by
  refine ⟨rfl, by decide, rfl, rfl⟩

/-- Claim C7 (counterexample): a per-call override embedder is supplied to
`similarity_search` (and maps the query to `[2,0,0]`, while the collection
default maps it to `[1,0,0]`), yet the issued query embeds the default's
vector `[1,0,0]`: the override is ignored, and the two candidate SQL texts
differ, so this is observable. -/
theorem search_ignores_override :
    optOverride.embedder = some exEmbedder2 ∧
    exEmbedder2.embedQuery "cat" = .ok [2, 0, 0] ∧
    exStore.similaritySearchSql "cat" optOverride =
      .ok (searchSql "documents" "[1,0,0]" "TRUE") ∧
    searchSql "documents" "[1,0,0]" "TRUE" ≠ searchSql "documents" "[2,0,0]" "TRUE" := by
  refine ⟨rfl, rfl, rfl, by decide⟩

/-- Claim C9 (counterexample): when the engine returns a row whose stored
metadata blob does not decode as JSON (a malformed blob), the whole
`similarity_search` call fails with the decode error instead of degrading
that row to an empty metadata mapping. -/
theorem malformed_metadata_fails_search :
    exStore.similaritySearch "cat" 1 optNone badEngine = .error .decode := by
  rfl

/-- Claim C9 (amended): a result row whose metadata blob fails to decode as
JSON fails the whole query (`try_get`'s error is propagated by `?` through
the collected `Result`); a blob decoding to a JSON value that is not an
object degrades to an empty metadata mapping for that row; a JSON-object
blob decodes to a mapping containing exactly its key-value pairs. -/
theorem metadata_decode_behavior (t : String) (d : Int)
    (kvs : List (String × JsonValue)) (v : JsonValue) (rs : List FetchedRow) :
    decodeRows ({ text := t, metadata := none, distance := d } :: rs) = .error .decode ∧
    decodeRow { text := t, metadata := some (.obj kvs), distance := d } =
      .ok { pageContent := t, metadata := kvs, score := d } ∧
    ((∀ o, v ≠ .obj o) →
      decodeRow { text := t, metadata := some v, distance := d } =
        .ok { pageContent := t, metadata := [], score := d }) := by
  refine ⟨rfl, rfl, fun h => ?_⟩
  cases v
  case obj o => exact absurd rfl (h o)
  all_goals rfl

/-- Witness for `metadata_decode_behavior`: a non-object (string) metadata
blob degrades to the empty mapping. -/
theorem metadata_decode_behavior_witness :
    decodeRow { text := "t", metadata := some (JsonValue.str "x"), distance := 0 } =
      .ok { pageContent := "t", metadata := [], score := 0 } :=
  (metadata_decode_behavior "t" 0 [] (.str "x") []).2.2 (fun _ h => by cases h)

/-- When the insert loop of `add_documents` returns `ok`, the rows it hands
to the transaction and the collected ids are exactly the consecutive-rowid
rows and stringified rowids for the batch. -/
theorem insertLoop_ok_spec (insOk : Nat → Bool) :
    ∀ (pairs : List (Document × List Int)) (nextId : Int) (i : Nat)
      (rows : List StoredRow) (ids : List String),
      insertLoop nextId pairs insOk i = .ok (rows, ids) →
      rows = mkRows nextId pairs ∧ ids = mkIds nextId pairs.length := by
  intro pairs
  induction pairs with
  | nil =>
    intro nextId i rows ids h
    simp only [insertLoop, Except.ok.injEq, Prod.mk.injEq] at h
    simp [mkRows, mkIds, ← h.1, ← h.2]
  | cons p rest ih =>
    obtain ⟨doc, vector⟩ := p
    intro nextId i rows ids h
    simp only [insertLoop] at h
    by_cases hok : insOk i = true
    · rw [if_pos hok] at h
      cases hrec : insertLoop (nextId + 1) rest insOk (i + 1) with
      | error e => rw [hrec] at h; simp at h
      | ok pr =>
        obtain ⟨rows', ids'⟩ := pr
        rw [hrec] at h
        simp only [Except.ok.injEq, Prod.mk.injEq] at h
        obtain ⟨h1, h2⟩ := h
        obtain ⟨hr, hi⟩ := ih (nextId + 1) (i + 1) rows' ids' hrec
        subst h1 h2
        simp [mkRows, mkIds, hr, hi]
    · rw [if_neg hok] at h
      simp at h

/-- Claim C2: `add_documents` is atomic. If the call returns an error —
embedder failure, count mismatch, `begin`, any `INSERT`, or `commit` failure
— the visible table state is unchanged (zero rows of the batch persist); if
it returns `Ok(ids)`, every document is persisted as a row of the batch in
input order, and `ids` are the storage-assigned consecutive rowids of those
rows, stringified, in input order. -/
theorem addDocuments_atomic (s : Store) (docs : List Document)
    (opt : SqliteOptions) (db : Db) (tx : TxOracle) :
    (∀ e, (s.addDocuments docs opt db tx).2 = .error e →
      (s.addDocuments docs opt db tx).1 = db) ∧
    (∀ ids, (s.addDocuments docs opt db tx).2 = .ok ids →
      ∃ vectors,
        (opt.embedder.getD s.embedder).embedDocuments
            (docs.map (fun d => d.pageContent)) = .ok vectors ∧
        vectors.length = docs.length ∧
        (s.addDocuments docs opt db tx).1 =
          { nextRowId := db.nextRowId + docs.length,
            rows := db.rows ++ mkRows db.nextRowId (docs.zip vectors) } ∧
        ids = mkIds db.nextRowId docs.length) := by
  cases hemb : (opt.embedder.getD s.embedder).embedDocuments
      (docs.map (fun d => d.pageContent)) with
  | error e0 =>
    constructor
    · intro e he
      simp [Store.addDocuments, hemb]
    · intro ids hi
      simp [Store.addDocuments, hemb] at hi
  | ok vectors =>
    by_cases hlen : vectors.length = docs.length
    · by_cases hbeg : tx.beginOk = true
      · cases hloop : insertLoop db.nextRowId (docs.zip vectors) tx.insertOk 0 with
        | error e1 =>
          constructor
          · intro e he
            simp [Store.addDocuments, hemb, hlen, hbeg, hloop]
          · intro ids hi
            simp [Store.addDocuments, hemb, hlen, hbeg, hloop] at hi
        | ok pr =>
          obtain ⟨newRows, ids'⟩ := pr
          obtain ⟨hrows, hids⟩ :=
            insertLoop_ok_spec tx.insertOk (docs.zip vectors) db.nextRowId 0
              newRows ids' hloop
          by_cases hcom : tx.commitOk = true
          · constructor
            · intro e he
              simp [Store.addDocuments, hemb, hlen, hbeg, hloop, hcom] at he
            · intro ids hi
              simp only [Store.addDocuments, hemb, hlen, hbeg, hloop, hcom,
                ne_eq, not_true_eq_false, if_false, if_true, ite_false,
                ite_true, Except.ok.injEq] at hi
              refine ⟨vectors, rfl, hlen, ?_, ?_⟩
              · simp [Store.addDocuments, hemb, hlen, hbeg, hloop, hcom, hrows]
              · have hzlen : (docs.zip vectors).length = docs.length := by
                  simp [List.length_zip, hlen]
                rw [← hi]
                rw [hids, hzlen]
          · constructor
            · intro e he
              simp [Store.addDocuments, hemb, hlen, hbeg, hloop, hcom]
            · intro ids hi
              simp [Store.addDocuments, hemb, hlen, hbeg, hloop, hcom] at hi
      · constructor
        · intro e he
          simp [Store.addDocuments, hemb, hlen, hbeg]
        · intro ids hi
          simp [Store.addDocuments, hemb, hlen, hbeg] at hi
    · constructor
      · intro e he
        simp [Store.addDocuments, hemb, hlen]
      · intro ids hi
        simp [Store.addDocuments, hemb, hlen] at hi

/-- Witness for `addDocuments_atomic`: a batch whose transaction fails at
`pool.begin()` leaves the (empty) table unchanged. -/
theorem addDocuments_atomic_witness :
    (exStore.addDocuments [exDoc] optNone dbEmpty txBeginFail).1 = dbEmpty :=
  (addDocuments_atomic exStore [exDoc] optNone dbEmpty txBeginFail).1 .storage rfl

/-- Claim C5: `add_documents` embeds all document texts in one collaborator
call; if the collaborator returns a number of vectors different from the
number of documents, the call fails with the count-mismatch error before the
transaction is even opened, and the table state is unchanged (no partial
write). -/
theorem addDocuments_count_mismatch (s : Store) (docs : List Document)
    (opt : SqliteOptions) (db : Db) (tx : TxOracle) (vectors : List (List Int))
    (hemb : (opt.embedder.getD s.embedder).embedDocuments
        (docs.map (fun d => d.pageContent)) = .ok vectors)
    (hlen : vectors.length ≠ docs.length) :
    s.addDocuments docs opt db tx = (db, .error .countMismatch) := by
  simp [Store.addDocuments, hemb, hlen]

/-- Witness for `addDocuments_count_mismatch`: an embedder returning zero
vectors for a one-document batch aborts the batch with the count-mismatch
error and an unchanged table. -/
theorem addDocuments_count_mismatch_witness :
    exStoreEmptyEmb.addDocuments [exDoc] optNone dbEmpty txOk =
      (dbEmpty, .error .countMismatch) :=
  addDocuments_count_mismatch exStoreEmptyEmb [exDoc] optNone dbEmpty txOk []
    rfl (by decide)

/-- Claim C7 (amended): `add_documents` uses the per-call override embedder
when supplied (its run coincides with a run whose default embedder is the
override and whose options carry no override); `similarity_search`, however,
always embeds the query with the collection's default embedder — its compiled
query is unchanged by removing the override from the options. -/
theorem embedder_override_add_only (s : Store) (q : String)
    (opt : SqliteOptions) (e : Embedder) (docs : List Document) (db : Db)
    (tx : TxOracle) :
    (opt.embedder = some e →
      s.addDocuments docs opt db tx =
        Store.addDocuments
          { table := s.table, vectorDimensions := s.vectorDimensions,
            embedder := e }
          docs { filters := opt.filters, embedder := none } db tx) ∧
    s.similaritySearchSql q opt =
      s.similaritySearchSql q { filters := opt.filters, embedder := none } := by
  constructor
  · intro h
    simp [Store.addDocuments, h]
  · rfl

/-- Witness for `embedder_override_add_only` at a concrete store, override
and one-document batch. -/
theorem embedder_override_add_only_witness :
    (exStore.addDocuments [exDoc] optOverride dbEmpty txOk =
      Store.addDocuments
        { table := exStore.table, vectorDimensions := exStore.vectorDimensions,
          embedder := exEmbedder2 }
        [exDoc] { filters := optOverride.filters, embedder := none } dbEmpty txOk) ∧
    exStore.similaritySearchSql "cat" optOverride =
      exStore.similaritySearchSql "cat"
        { filters := optOverride.filters, embedder := none } :=
  ⟨(embedder_override_add_only exStore "cat" optOverride exEmbedder2 [exDoc]
      dbEmpty txOk).1 rfl,
   (embedder_override_add_only exStore "cat" optOverride exEmbedder2 [exDoc]
      dbEmpty txOk).2⟩

end SqliteVec
